import Mathlib

/-!
The node `camera_direction_determinator`: a shallow embedding of
`src/camera_direction_determinator.cpp` and theorems about it.

Conventions of the embedding.

* A C++ `double` that the node only copies, negates, compares or tests with `isfinite`
  is a value of `Dbl`: a rational (every finite double is one), an infinity, or NaN.
  Comparisons follow IEEE 754. Decimal literals stand for the rational they denote.
* Floating-point arithmetic done by libraries (`acos`, `cos`, `sin`, `/`, `*`,
  `ros::Duration::toSec`) and the external classes and functions the node calls
  (`KalmanFilter` observers, `tf2::doTransform`) are fields of `Env`.
* A `KalmanFilter` object is the history of the mutating calls made on it; an observer
  such as `get_likelihood` is an arbitrary function of that history.
* `std::map` objects are association lists in iteration order with distinct keys.
* Publishing a message is recorded as an output of the callback.
-/

namespace CameraDirection

/-! ## Doubles -/

/-- A C++ `double`, up to rounding: NaN, the two infinities, or a finite value. -/
inductive Dbl where
  | nan : Dbl
  | negInf : Dbl
  | fin (q : ℚ) : Dbl
  | posInf : Dbl
deriving DecidableEq

namespace Dbl

/-- The C++ `a < b` on doubles. -/
def lt : Dbl → Dbl → Bool
  | fin a, fin b => decide (a < b)
  | negInf, fin _ => true
  | negInf, posInf => true
  | fin _, posInf => true
  | _, _ => false

/-- The C++ `a <= b` on doubles. -/
def le : Dbl → Dbl → Bool
  | nan, _ => false
  | _, nan => false
  | fin a, fin b => decide (a ≤ b)
  | negInf, _ => true
  | _, posInf => true
  | _, _ => false

/-- The C++ `a == b` on doubles: NaN equals nothing. -/
def eq : Dbl → Dbl → Bool
  | nan, _ => false
  | _, nan => false
  | a, b => decide (a = b)

/-- The C++ `isfinite`. -/
def isfinite : Dbl → Bool
  | fin _ => true
  | _ => false

/-- Unary minus on doubles (exact). -/
def neg : Dbl → Dbl
  | nan => nan
  | negInf => posInf
  | fin q => fin (-q)
  | posInf => negInf

end Dbl

/-! ## Resource arbiter: `call_color_enable_service` -/

/-- Modelled from the spec: the request of the `color_detector_srvs::ColorEnable`
service, whose declaration is in another package. The spec gives it as
`{ color, enable: bool }`; the source assigns a `std::string` to `color`.
A default-constructed request has `color = ""` and `enable = false`. -/
structure ColorEnableRequest where
  color : String
  enable : Bool
deriving DecidableEq

/-- The `std::string` that `srv.request.color = b` leaves in the field for a `bool` b:
`std::string::operator=(char)` is selected, so the string holds the single
character with code 1 (true) or 0 (false). -/
def colorOfBool (b : Bool) : String :=
  String.singleton (Char.ofNat (if b then 1 else 0))

/-- One `client->call(srv)`: the map key being toggled (`itr->first`), the request as
sent, and whether the call returned true. -/
structure ToggleCall where
  key : String
  request : ColorEnableRequest
  ok : Bool
deriving DecidableEq

/-- A `ros::ServiceClient`: the outcome of its n-th call of the arbitration, given the
request sent. -/
abbrev ServiceClient := Nat → ColorEnableRequest → Bool

/-- A `std::map<std::string, bool>` in iteration order. -/
abbrev ColorEnable := List (String × Bool)

/-- The body of the loop of `call_color_enable_service` at the entry
`(first, second)`; n counts the calls made so far. Returns `itr->second` after the
body and the calls made, in order. -/
def call_color_enable_service_body (client : ServiceClient) (color : String)
    (first : String) (second : Bool) (n : Nat) : Bool × List ToggleCall :=
  -- if (itr->first == color && itr->second == false)
  let r1 : Bool × List ToggleCall :=
    if first = color ∧ second = false then
      -- srv.request.color = itr->first; srv.request.color = true;
      let srv : ColorEnableRequest := { color := colorOfBool true, enable := false }
      if client n srv then (true, [{ key := first, request := srv, ok := true }])
      else (second, [{ key := first, request := srv, ok := false }])
    else (second, [])
  -- if (itr->first != color && itr->second == true)
  let r2 : Bool × List ToggleCall :=
    if first ≠ color ∧ r1.1 = true then
      -- srv.request.color = itr->first; srv.request.color = false;
      let srv : ColorEnableRequest := { color := colorOfBool false, enable := false }
      if client (n + r1.2.length) srv then
        (false, [{ key := first, request := srv, ok := true }])
      else (r1.1, [{ key := first, request := srv, ok := false }])
    else (r1.1, [])
  (r2.1, r1.2 ++ r2.2)

/-- The loop of `call_color_enable_service` from the iterator position holding the
remaining entries; n counts the calls made so far. Returns the entries after the loop
and the calls made, in order. -/
def call_color_enable_service_loop (client : ServiceClient) (color : String) :
    ColorEnable → Nat → ColorEnable × List ToggleCall
  | [], _ => ([], [])
  | (first, second) :: rest, n =>
    let s := call_color_enable_service_body client color first second n
    let tail := call_color_enable_service_loop client color rest (n + s.2.length)
    ((first, s.1) :: tail.1, s.2 ++ tail.2)

/-- `CameraDirectionDeterminator::call_color_enable_service`: the robot's map after
the arbitration and the service calls made. -/
def call_color_enable_service (client : ServiceClient) (color_enable : ColorEnable)
    (color : String) : ColorEnable × List ToggleCall :=
  call_color_enable_service_loop client color color_enable 0

/-! ## Track store: `kalman_filters_` -/

/-- A mutating call on a `KalmanFilter` object (class of the external package
`kalman_filter`). -/
inductive KFCall where
  | set_motion_noise (v : Dbl) : KFCall
  | set_measurement_noise (v : Dbl) : KFCall
  | update (x y t : Dbl) : KFCall
  | estimate_update (t : Dbl) : KFCall
deriving DecidableEq

/-- A `KalmanFilter` object: the mutating calls made on it since its default
construction, oldest first. -/
abbrev KalmanFilter := List KFCall

/-- The `std::map<std::string, KalmanFilter> kalman_filters_`. -/
abbrev KalmanFilters := List (String × KalmanFilter)

/-- The `kalman_filters_.count(color)`. -/
def KalmanFilters.count (kfs : KalmanFilters) (color : String) : Nat :=
  if kfs.any (fun e => e.1 == color) then 1 else 0

/-- The `kalman_filters_[color].method(args)` for a mutating method: `operator[]`
default-constructs the entry when the key is absent, then the call is made on it. -/
def KalmanFilters.call (kfs : KalmanFilters) (color : String) (c : KFCall) :
    KalmanFilters :=
  match kfs with
  | [] => [(color, [c])]
  | (k, v) :: rest =>
    if k = color then (k, v ++ [c]) :: rest else (k, v) :: KalmanFilters.call rest color c

/-- The object `kalman_filters_[color]` read by an observer (default-constructed when
the key is absent). -/
def KalmanFilters.at (kfs : KalmanFilters) (color : String) : KalmanFilter :=
  (kfs.lookup color).getD []

/-! ## Messages -/

/-- A `geometry_msgs::Point` or `Vector3`. -/
structure Vec3 where
  x : Dbl
  y : Dbl
  z : Dbl
deriving DecidableEq

/-- A `geometry_msgs::Quaternion`. -/
structure Quaternion where
  x : Dbl
  y : Dbl
  z : Dbl
  w : Dbl
deriving DecidableEq

/-- A `std_msgs::Header`; stamps are `ros::Time` values in nanoseconds. -/
structure Header where
  seq : Nat
  stamp : Nat
  frame_id : String
deriving DecidableEq

/-- A `geometry_msgs::Pose`. -/
structure Pose where
  position : Vec3
  orientation : Quaternion
deriving DecidableEq

/-- A `geometry_msgs::PoseStamped`. -/
structure PoseStamped where
  header : Header
  pose : Pose
deriving DecidableEq

/-- A `geometry_msgs::TransformStamped`. -/
structure TransformStamped where
  header : Header
  child_frame_id : String
  translation : Vec3
  rotation : Quaternion
deriving DecidableEq

/-- A `color_detector_msgs::TargetPosition`, with the fields the node reads. -/
structure TargetPosition where
  header : Header
  color : String
  x : Dbl
  y : Dbl
  z : Dbl
deriving DecidableEq

/-- A `color_detector_msgs::TargetAngle`, with the fields the node reads. -/
structure TargetAngle where
  color : String
  cluster_num : Int
  radian : Dbl
deriving DecidableEq

/-- A `color_detector_msgs::TargetAngleList`. -/
structure TargetAngleList where
  my_number : Int
  data : List TargetAngle
deriving DecidableEq

/-- A `std_msgs::ColorRGBA`. -/
structure ColorRGBA where
  r : Dbl
  g : Dbl
  b : Dbl
  a : Dbl
deriving DecidableEq

/-- The `visualization_msgs::Marker` action constants the node uses. -/
inductive MarkerAction where
  | ADD : MarkerAction
  | DELETE : MarkerAction
deriving DecidableEq

/-- The `visualization_msgs::Marker` type constants: 0 (the default) and CYLINDER. -/
inductive MarkerType where
  | ARROW : MarkerType
  | CYLINDER : MarkerType
deriving DecidableEq

/-- A `visualization_msgs::Marker`, with the fields the node writes. -/
structure Marker where
  header : Header
  ns : String
  id : Nat
  type : MarkerType
  action : MarkerAction
  pose : Pose
  scale : Vec3
  color : ColorRGBA
  lifetime : Nat
deriving DecidableEq

/-- A `dynamixel_angle_msgs::DynamixelAngle` published for one robot: the message
field `theta` and the `roomba_number` whose publisher `dynamixel_pubs_[roomba_number - 1]`
sends it. -/
structure PublishedAngle where
  theta : Dbl
  roomba_number : Int
deriving DecidableEq

/-! ## External collaborators -/

/-- What the node calls and does not define: the observers of `KalmanFilter`,
`tf2::doTransform`, `ros::Duration::toSec` (on a nanosecond count) and the
floating-point arithmetic of the marker geometry. -/
structure Env where
  get_likelihood : KalmanFilter → Dbl
  get_x : KalmanFilter → Dbl
  get_y : KalmanFilter → Dbl
  get_ellipse : KalmanFilter → Dbl × Dbl × Dbl
  doTransform : PoseStamped → TransformStamped → PoseStamped
  toSec : Int → Dbl
  div : Dbl → Dbl → Dbl
  mul : Dbl → Dbl → Dbl
  acos : Dbl → Dbl
  cos : Dbl → Dbl
  sin : Dbl → Dbl

/-- The readings of `ros::Time::now()` during one callback, in nanoseconds; the
argument is the loop iteration that reads the clock. -/
abbrev Clock := Nat → Nat

/-- The `tf_buffer_.lookupTransform(target, source, ros::Time(0))`: `none` when it
throws `tf2::TransformException`. -/
abbrev TfBuffer := String → String → Option TransformStamped

/-! ## The node -/

/-- The members of `CameraDirectionDeterminator` that the callbacks read or write. -/
structure CameraDirectionDeterminator where
  start_time_ : Nat
  MIN_CLUSTER : Int
  MOTION_NOISE : Dbl
  MEASUREMENT_NOISE : Dbl
  LIFETIME_THRESHOLD : Dbl
  colors_ : List String
  kalman_filters_ : KalmanFilters
  color_enables_ : List ColorEnable
deriving DecidableEq

/-- The string `"roomba" + std::to_string(i + 1)`. -/
def roombaName (i : Nat) : String :=
  "roomba" ++ toString (i + 1)

/-- The elapsed time `(now - start_time_).toSec()`. -/
def elapsed (env : Env) (self : CameraDirectionDeterminator) (now : Nat) : Dbl :=
  env.toSec ((now : Int) - (self.start_time_ : Int))

/-- The local `target_pose` that `calc_target_pose_on_world` builds and hands to
`tf2::doTransform`. -/
def target_pose (roomba : String) (target : TargetPosition) : PoseStamped :=
  { header := { target.header with frame_id := roomba ++ "/camera_link" }
    pose :=
      { position := { x := target.z, y := Dbl.neg target.x, z := target.y }
        orientation := { w := Dbl.fin 1, x := Dbl.fin 0, y := Dbl.fin 0, z := Dbl.fin 0 } } }

/-- `CameraDirectionDeterminator::calc_target_pose_on_world`: the value written to
`*output_pose`. -/
def calc_target_pose_on_world (env : Env) (roomba : String) (target : TargetPosition)
    (transform : TransformStamped) : PoseStamped :=
  env.doTransform (target_pose roomba target) transform

/-- `CameraDirectionDeterminator::update_kalman_filter`; now is the clock reading
of the call. -/
def update_kalman_filter (env : Env) (tf_buffer_ : TfBuffer) (now : Nat)
    (self : CameraDirectionDeterminator) (idx : Nat) (pos : TargetPosition) :
    CameraDirectionDeterminator :=
  let roomba := roombaName idx
  match tf_buffer_ "map" (roomba ++ "/camera_link") with
  | none => self
  | some transform_stamped =>
    let target := calc_target_pose_on_world env roomba pos transform_stamped
    let color := self.colors_.getD idx ""
    let kfs0 :=
      if self.kalman_filters_.count color = 0 then
        (self.kalman_filters_.call color (.set_motion_noise self.MOTION_NOISE)).call color
          (.set_measurement_noise self.MEASUREMENT_NOISE)
      else self.kalman_filters_
    { self with
      kalman_filters_ :=
        kfs0.call color
          (.update target.pose.position.x target.pose.position.y (elapsed env self now)) }

/-- The loop of `position_callback` from index i on. -/
def position_callback_loop (env : Env) (tf_buffer_ : TfBuffer) (clock : Clock)
    (position : TargetPosition) :
    List String → Nat → CameraDirectionDeterminator → CameraDirectionDeterminator
  | [], _, self => self
  | c :: rest, i, self =>
    if c = position.color then
      position_callback_loop env tf_buffer_ clock position rest (i + 1)
        (update_kalman_filter env tf_buffer_ (clock i) self i position)
    else position_callback_loop env tf_buffer_ clock position rest (i + 1) self

/-- `CameraDirectionDeterminator::position_callback`. -/
def position_callback (env : Env) (tf_buffer_ : TfBuffer) (clock : Clock)
    (self : CameraDirectionDeterminator) (position : TargetPosition) :
    CameraDirectionDeterminator :=
  position_callback_loop env tf_buffer_ clock position self.colors_ 0 self

/-- `CameraDirectionDeterminator::publish_angle`. -/
def publish_angle (radian : Dbl) (roomba_number : Int) : PublishedAngle :=
  { theta := radian, roomba_number := roomba_number }

/-- The initial value `1e5` of `min_likelihood` in `angle_callback`. -/
def min_likelihood_init : Dbl := Dbl.fin 100000

/-- The loop of `angle_callback` over the remaining candidates; i is the iteration
index, the other arguments the current `kalman_filters_`, `angle` and
`min_likelihood`. -/
def angle_callback_loop (env : Env) (clock : Clock) (self : CameraDirectionDeterminator) :
    List TargetAngle → Nat → KalmanFilters → TargetAngle → Dbl →
      KalmanFilters × TargetAngle × Dbl
  | [], _, kfs, angle, min_likelihood => (kfs, angle, min_likelihood)
  | agl :: rest, i, kfs, angle, min_likelihood =>
    if agl.cluster_num < self.MIN_CLUSTER then
      angle_callback_loop env clock self rest (i + 1) kfs angle min_likelihood
    else
      let kfs1 := kfs.call agl.color (.estimate_update (elapsed env self (clock i)))
      let likelihood := env.get_likelihood (kfs1.at agl.color)
      if Dbl.lt likelihood min_likelihood then
        angle_callback_loop env clock self rest (i + 1) kfs1 agl likelihood
      else angle_callback_loop env clock self rest (i + 1) kfs1 angle min_likelihood

/-- What one `angle_callback` does: the node afterwards, the angle published and the
service calls made. -/
structure AngleResult where
  state : CameraDirectionDeterminator
  published : PublishedAngle
  calls : List ToggleCall
deriving DecidableEq

/-- `CameraDirectionDeterminator::angle_callback`. The last statement indexes
`color_enables_[roomba_idx - 1]`; for an index outside the vector (undefined in the
source) the embedding makes no call and changes no map. -/
def angle_callback (env : Env) (clock : Clock) (client : ServiceClient)
    (self : CameraDirectionDeterminator) (angles : TargetAngleList) : AngleResult :=
  if angles.data.isEmpty then
    { state := self, published := publish_angle (Dbl.fin 0) angles.my_number, calls := [] }
  else
    let angle0 : TargetAngle := { color := "", cluster_num := 0, radian := Dbl.fin 0 }
    let r := angle_callback_loop env clock self angles.data 0 self.kalman_filters_ angle0
      min_likelihood_init
    let self1 := { self with kalman_filters_ := r.1 }
    let angle := r.2.1
    let min_likelihood := r.2.2
    if Dbl.eq min_likelihood min_likelihood_init then
      { state := self1, published := publish_angle (Dbl.fin 0) angles.my_number, calls := [] }
    else if !Dbl.isfinite angle.radian then
      { state := self1, published := publish_angle (Dbl.fin 0) angles.my_number, calls := [] }
    else
      let published := publish_angle angle.radian angles.my_number
      let roomba_idx := angles.my_number
      let k := (roomba_idx - 1).toNat
      if 1 ≤ roomba_idx ∧ k < self1.color_enables_.length then
        let a := call_color_enable_service client (self1.color_enables_.getD k []) angle.color
        { state := { self1 with color_enables_ := self1.color_enables_.set k a.1 }
          published := published
          calls := a.2 }
      else { state := self1, published := published, calls := [] }

/-- The table that `set_color_map` fills, read as `color_map_[name]` (a key that is
absent gives the default-constructed value). -/
def color_map_ (name : String) : ColorRGBA :=
  if name = "green" then
    { r := Dbl.fin 0, g := Dbl.fin (1 / 2), b := Dbl.fin 0, a := Dbl.fin (3 / 10) }
  else if name = "yellow" then
    { r := Dbl.fin 1, g := Dbl.fin 1, b := Dbl.fin 0, a := Dbl.fin (3 / 10) }
  else if name = "blue" then
    { r := Dbl.fin 0, g := Dbl.fin 0, b := Dbl.fin 1, a := Dbl.fin (3 / 10) }
  else if name = "orange" then
    { r := Dbl.fin 1, g := Dbl.fin (3 / 5), b := Dbl.fin 0, a := Dbl.fin (3 / 10) }
  else if name = "purple" then
    { r := Dbl.fin (1 / 2), g := Dbl.fin 0, b := Dbl.fin (1 / 2), a := Dbl.fin (3 / 10) }
  else if name = "red" then
    { r := Dbl.fin 1, g := Dbl.fin 0, b := Dbl.fin 0, a := Dbl.fin (3 / 10) }
  else { r := Dbl.fin 0, g := Dbl.fin 0, b := Dbl.fin 0, a := Dbl.fin 0 }

/-- The marker built by one iteration of the loop of `timer_callback`, for the color
at index i, from `kalman_filters_` as it is after the `estimate_update` of the iteration. -/
def timer_marker (env : Env) (self : CameraDirectionDeterminator) (now : Nat) (i : Nat)
    (color : String) (kfs : KalmanFilters) : Marker :=
  let zero : Dbl := Dbl.fin 0
  let marker : Marker :=
    { header := { seq := 0, stamp := now, frame_id := "map" }
      ns := roombaName i ++ "/kf"
      id := i
      type := MarkerType.CYLINDER
      action := MarkerAction.ADD
      pose :=
        { position := { x := zero, y := zero, z := zero }
          orientation := { x := zero, y := zero, z := zero, w := zero } }
      scale := { x := zero, y := zero, z := zero }
      color := { r := zero, g := zero, b := zero, a := zero }
      lifetime := 0 }
  if Dbl.lt (env.get_likelihood (kfs.at color)) self.LIFETIME_THRESHOLD then
    { marker with action := MarkerAction.DELETE }
  else
    let ellipse := env.get_ellipse (kfs.at color)
    let theta := env.acos (env.div ellipse.2.1 ellipse.1)
    let half := env.div theta (Dbl.fin 2)
    { marker with
      action := MarkerAction.ADD
      scale := { x := ellipse.1, y := ellipse.2.1, z := Dbl.fin (1 / 5) }
      pose :=
        { position :=
            { x := env.get_x (kfs.at color), y := env.get_y (kfs.at color), z := Dbl.fin (1 / 5) }
          orientation :=
            { w := env.cos half
              x := env.mul (env.cos ellipse.2.2) (env.sin half)
              y := env.mul (env.sin ellipse.2.2) (env.sin half)
              z := zero } }
      color := color_map_ color }

/-- The loop of `timer_callback` from index i on: `kalman_filters_` afterwards and the
markers pushed, in order. -/
def timer_callback_loop (env : Env) (clock : Clock) (self : CameraDirectionDeterminator) :
    List String → Nat → KalmanFilters → KalmanFilters × List Marker
  | [], _, kfs => (kfs, [])
  | color :: rest, i, kfs =>
    let now := clock i
    let kfs1 := kfs.call color (.estimate_update (elapsed env self now))
    let tail := timer_callback_loop env clock self rest (i + 1) kfs1
    (tail.1, timer_marker env self now i color kfs1 :: tail.2)

/-- `CameraDirectionDeterminator::timer_callback`: the node afterwards and the
`MarkerArray` published. -/
def timer_callback (env : Env) (clock : Clock) (self : CameraDirectionDeterminator) :
    CameraDirectionDeterminator × List Marker :=
  let r := timer_callback_loop env clock self self.colors_ 0 self.kalman_filters_
  ({ self with kalman_filters_ := r.1 }, r.2)

/-! ## Notions used to state the properties -/

/-- An entry of a robot's map differs from the target state for the winning color. -/
def mismatched (color : String) (e : String × Bool) : Bool :=
  e.2 != decide (e.1 = color)

/-- The scores that the loop of `angle_callback` reads, one per candidate in input
order: `none` for a candidate the loop skips (`cluster_num < MIN_CLUSTER`), otherwise
the value of `get_likelihood` read right after the `estimate_update` of the candidate's
color. The arguments i and kfs are the iteration index and `kalman_filters_` at the
first candidate of the list. -/
def scoresRead (env : Env) (clock : Clock) (self : CameraDirectionDeterminator) :
    List TargetAngle → Nat → KalmanFilters → List (Option Dbl)
  | [], _, _ => []
  | agl :: rest, i, kfs =>
    if agl.cluster_num < self.MIN_CLUSTER then
      none :: scoresRead env clock self rest (i + 1) kfs
    else
      let kfs1 := kfs.call agl.color (.estimate_update (elapsed env self (clock i)))
      some (env.get_likelihood (kfs1.at agl.color)) ::
        scoresRead env clock self rest (i + 1) kfs1

/-- The scores that the loop of `timer_callback` reads, one per color of the list in
order: the value of `get_likelihood` read after the `estimate_update` of the color. The
arguments i and kfs are the loop index and `kalman_filters_` at the first color of the
list. -/
def timerScores (env : Env) (clock : Clock) (self : CameraDirectionDeterminator) :
    List String → Nat → KalmanFilters → List Dbl
  | [], _, _ => []
  | color :: rest, i, kfs =>
    let kfs1 := kfs.call color (.estimate_update (elapsed env self (clock i)))
    env.get_likelihood (kfs1.at color) :: timerScores env clock self rest (i + 1) kfs1

/-- Whether a call on a filter sets a noise parameter. -/
def KFCall.setsNoise : KFCall → Bool
  | .set_motion_noise _ => true
  | .set_measurement_noise _ => true
  | _ => false

/-- A filter carries the configured noise parameters: the first calls made on it set
`MOTION_NOISE` and `MEASUREMENT_NOISE`, and no later call sets a noise parameter. -/
def carriesConfiguredNoise (self : CameraDirectionDeterminator) (k : KalmanFilter) : Bool :=
  k.take 2 == [KFCall.set_motion_noise self.MOTION_NOISE,
    KFCall.set_measurement_noise self.MEASUREMENT_NOISE] &&
  (k.drop 2).all (fun c => !c.setsNoise)

/-! ## Example inputs -/

/-- A service whose every call succeeds. -/
def clientOk : ServiceClient := fun _ _ => true

/-- A service whose every call fails. -/
def clientFail : ServiceClient := fun _ _ => false

/-- A robot's map with the detector of blue enabled. -/
def blueEnabled : ColorEnable := [("blue", true), ("green", false), ("red", false)]

/-- Whether a call on a filter is a measurement update. -/
def KFCall.isUpdate : KFCall → Bool
  | .update _ _ _ => true
  | _ => false

/-- An environment for the examples: a filter that has fused a measurement scores 0.2,
one that has not scores 0.5; `doTransform` with zero translation and unit rotation keeps
the pose and gives NaN coordinates otherwise; durations are whole seconds. -/
def exampleEnv : Env :=
  { get_likelihood := fun k => if k.any KFCall.isUpdate then Dbl.fin (1 / 5) else Dbl.fin (1 / 2)
    get_x := fun _ => Dbl.fin 0
    get_y := fun _ => Dbl.fin 0
    get_ellipse := fun _ => (Dbl.fin 1, Dbl.fin 1, Dbl.fin 0)
    doTransform := fun p tr =>
      if tr.translation = { x := Dbl.fin 0, y := Dbl.fin 0, z := Dbl.fin 0 } ∧
          tr.rotation = { x := Dbl.fin 0, y := Dbl.fin 0, z := Dbl.fin 0, w := Dbl.fin 1 } then
        { header := { p.header with frame_id := tr.header.frame_id }, pose := p.pose }
      else
        { header := { p.header with frame_id := tr.header.frame_id }
          pose :=
            { position := { x := Dbl.nan, y := Dbl.nan, z := Dbl.nan }
              orientation := { x := Dbl.nan, y := Dbl.nan, z := Dbl.nan, w := Dbl.nan } } }
    toSec := fun n => Dbl.fin n
    div := fun _ _ => Dbl.nan
    mul := fun _ _ => Dbl.nan
    acos := fun _ => Dbl.nan
    cos := fun _ => Dbl.nan
    sin := fun _ => Dbl.nan }

/-- The example environment with a filter whose score is always 200000. -/
def staleEnv : Env :=
  { exampleEnv with get_likelihood := fun _ => Dbl.fin 200000 }

/-- The report of robot 1 in which the first-seen candidate has a NaN bearing angle. -/
def nanAngles : TargetAngleList :=
  { my_number := 1
    data :=
      [{ color := "green", cluster_num := 400, radian := Dbl.nan },
       { color := "blue", cluster_num := 500, radian := Dbl.fin (-1 / 10) }] }

/-- The report of robot 2 in which every candidate is below the default `MIN_CLUSTER`. -/
def smallAngles : TargetAngleList :=
  { my_number := 2
    data :=
      [{ color := "green", cluster_num := 299, radian := Dbl.fin (3 / 10) },
       { color := "blue", cluster_num := 10, radian := Dbl.fin (-1 / 10) }] }

/-- The example environment with a filter whose score is always 0. -/
def freshEnv : Env :=
  { exampleEnv with get_likelihood := fun _ => Dbl.fin 0 }

/-- A transform with zero translation and unit rotation into the frame "map". -/
def identityTransform : TransformStamped :=
  { header := { seq := 0, stamp := 0, frame_id := "map" }
    child_frame_id := "roomba1/camera_link"
    translation := { x := Dbl.fin 0, y := Dbl.fin 0, z := Dbl.fin 0 }
    rotation := { x := Dbl.fin 0, y := Dbl.fin 0, z := Dbl.fin 0, w := Dbl.fin 1 } }

/-- A transform buffer in which every lookup gives `identityTransform`. -/
def identityBuffer : TfBuffer := fun _ _ => some identityTransform

/-- The observation of green at camera coordinates x = 1, y = 0.5, z = 2. -/
def greenPosition : TargetPosition :=
  { header := { seq := 0, stamp := 0, frame_id := "" }
    color := "green"
    x := Dbl.fin 1
    y := Dbl.fin (1 / 2)
    z := Dbl.fin 2 }

/-- A clock that reads i at iteration i. -/
def exampleClock : Clock := fun i => i

/-- A node with the default parameters, two colors and two robots, whose track of green
has fused one measurement and whose detectors are all disabled. -/
def exampleNode : CameraDirectionDeterminator :=
  { start_time_ := 0
    MIN_CLUSTER := 300
    MOTION_NOISE := Dbl.fin (3 / 100)
    MEASUREMENT_NOISE := Dbl.fin (1 / 10)
    LIFETIME_THRESHOLD := Dbl.fin (1 / 10)
    colors_ := ["green", "blue"]
    kalman_filters_ :=
      [("green",
        [KFCall.set_motion_noise (Dbl.fin (3 / 100)),
         KFCall.set_measurement_noise (Dbl.fin (1 / 10)),
         KFCall.update (Dbl.fin 0) (Dbl.fin 0) (Dbl.fin 0)])]
    color_enables_ :=
      [[("blue", true), ("green", false)], [("blue", false), ("green", false)]] }

/-- The report of robot 1 with candidates green (400, 0.3) and blue (500, -0.1). -/
def exampleAngles : TargetAngleList :=
  { my_number := 1
    data :=
      [{ color := "green", cluster_num := 400, radian := Dbl.fin (3 / 10) },
       { color := "blue", cluster_num := 500, radian := Dbl.fin (-1 / 10) }] }

/-- A service whose first call fails and whose later calls succeed. -/
def clientFirstFails : ServiceClient := fun n _ => n != 0

/-! # Theorems -/

/-! ## Resource arbiter -/

theorem body_spec (client : ServiceClient) (color first : String) (second : Bool) (n : Nat) :
    ((call_color_enable_service_body client color first second n).2 = [] ∧
      (call_color_enable_service_body client color first second n).1 = second ∧
      second = decide (first = color)) ∨
    (∃ c : ToggleCall,
      (call_color_enable_service_body client color first second n).2 = [c] ∧
      c.key = first ∧ second ≠ decide (first = color) ∧
      (call_color_enable_service_body client color first second n).1 =
        (if c.ok then !second else second)) := by
  unfold call_color_enable_service_body
  by_cases hc : first = color <;> cases second <;> simp [hc]
  · split <;> simp
  · split <;> simp

theorem loop_cons (client : ServiceClient) (color first : String) (second : Bool)
    (rest : ColorEnable) (n : Nat) :
    call_color_enable_service_loop client color ((first, second) :: rest) n =
      ((first, (call_color_enable_service_body client color first second n).1) ::
          (call_color_enable_service_loop client color rest
            (n + (call_color_enable_service_body client color first second n).2.length)).1,
        (call_color_enable_service_body client color first second n).2 ++
          (call_color_enable_service_loop client color rest
            (n + (call_color_enable_service_body client color first second n).2.length)).2) := by
  simp [call_color_enable_service_loop]

theorem loop_keys (client : ServiceClient) (color : String) (m : ColorEnable) (n : Nat) :
    (call_color_enable_service_loop client color m n).1.map Prod.fst = m.map Prod.fst := by
  induction m generalizing n with
  | nil => simp [call_color_enable_service_loop]
  | cons e rest ih =>
    obtain ⟨first, second⟩ := e
    rw [loop_cons]
    simp [ih]

theorem loop_call_keys (client : ServiceClient) (color : String) (m : ColorEnable) (n : Nat) :
    (call_color_enable_service_loop client color m n).2.map ToggleCall.key =
      (m.filter (mismatched color)).map Prod.fst := by
  induction m generalizing n with
  | nil => simp [call_color_enable_service_loop]
  | cons e rest ih =>
    obtain ⟨first, second⟩ := e
    rw [loop_cons]
    rcases body_spec client color first second n with ⟨h1, _, h3⟩ | ⟨c, h1, h2, h3, _⟩
    · have hm : mismatched color (first, second) = false := by
        simp [mismatched, h3]
      simp [h1, ih, List.filter_cons, hm]
    · have hm : mismatched color (first, second) = true := by
        simp only [mismatched, bne_iff_ne]
        exact h3
      simp [h1, ih, List.filter_cons, hm, h2]

theorem loop_failed_keys (client : ServiceClient) (color : String) (m : ColorEnable) (n : Nat) :
    ((call_color_enable_service_loop client color m n).1.filter (mismatched color)).map Prod.fst =
      ((call_color_enable_service_loop client color m n).2.filter (fun c => !c.ok)).map
        ToggleCall.key := by
  induction m generalizing n with
  | nil => simp [call_color_enable_service_loop]
  | cons e rest ih =>
    obtain ⟨first, second⟩ := e
    rw [loop_cons]
    rcases body_spec client color first second n with ⟨h1, h2, h3⟩ | ⟨c, h1, h2, h3, h4⟩
    · have hm : mismatched color (first, second) = false := by
        simp [mismatched, h3]
      rw [h2] at *
      simp [h1, ih, List.filter_cons, hm]
    · rw [h1, h4]
      cases hok : c.ok
      · have hm : mismatched color (first, second) = true := by
          simp only [mismatched, bne_iff_ne]
          exact h3
        simp [List.filter_cons, hm, hok, h2, ih]
      · have hm : mismatched color (first, !second) = false := by
          simp only [mismatched]
          cases second <;> by_cases hc : first = color <;> simp_all
        simp [List.filter_cons, hm, hok, ih]

theorem loop_all_ok (client : ServiceClient) (color : String) (m : ColorEnable) (n : Nat)
    (hok : ∀ c ∈ (call_color_enable_service_loop client color m n).2, c.ok = true) :
    (call_color_enable_service_loop client color m n).1 =
      m.map (fun e => (e.1, decide (e.1 = color))) := by
  induction m generalizing n with
  | nil => simp [call_color_enable_service_loop]
  | cons e rest ih =>
    obtain ⟨first, second⟩ := e
    rw [loop_cons] at hok ⊢
    have hrest := ih _ (fun c hc => hok c (List.mem_append_right _ hc))
    rcases body_spec client color first second n with ⟨_, h2, h3⟩ | ⟨c, h1, _, h3, h4⟩
    · rw [hrest, h2]
      simp [← h3]
    · have hc : c.ok = true := hok c (by simp [h1])
      rw [hrest, h4, hc]
      cases second <;> by_cases hcol : first = color <;> simp_all

theorem loop_noop (client : ServiceClient) (color : String) (m : ColorEnable) (n : Nat)
    (h : ∀ e ∈ m, e.2 = decide (e.1 = color)) :
    call_color_enable_service_loop client color m n = (m, []) := by
  induction m generalizing n with
  | nil => simp [call_color_enable_service_loop]
  | cons e rest ih =>
    obtain ⟨first, second⟩ := e
    rw [loop_cons]
    have he : second = decide (first = color) := h (first, second) (by simp)
    rcases body_spec client color first second n with ⟨h1, h2, _⟩ | ⟨c, _, _, h3, _⟩
    · rw [h1, h2, ih _ (fun e he => h e (List.mem_cons_of_mem _ he))]
      simp
    · exact absurd he h3

theorem loop_no_call_lookup (client : ServiceClient) (color : String) (m : ColorEnable) (n : Nat)
    (k : String)
    (hk : k ∉ (call_color_enable_service_loop client color m n).2.map ToggleCall.key) :
    (call_color_enable_service_loop client color m n).1.lookup k = m.lookup k := by
  induction m generalizing n with
  | nil => simp [call_color_enable_service_loop]
  | cons e rest ih =>
    obtain ⟨first, second⟩ := e
    rw [loop_cons] at hk ⊢
    simp only [List.map_append, List.mem_append, not_or] at hk
    have hrest := ih _ hk.2
    by_cases hkf : k = first
    · subst hkf
      rcases body_spec client color k second n with ⟨_, h2, _⟩ | ⟨c, h1, h2, _, _⟩
      · simp [List.lookup, h2]
      · exact absurd (by simp [h1, h2]) hk.1
    · have hb : (k == first) = false := by simpa using hkf
      simp [List.lookup, hb, hrest]

theorem loop_failed_lookup (client : ServiceClient) (color : String) (m : ColorEnable) (n : Nat)
    (hnodup : (m.map Prod.fst).Nodup) (c : ToggleCall)
    (hc : c ∈ (call_color_enable_service_loop client color m n).2) (hfail : c.ok = false) :
    (call_color_enable_service_loop client color m n).1.lookup c.key = m.lookup c.key := by
  induction m generalizing n with
  | nil => simp [call_color_enable_service_loop] at hc
  | cons e rest ih =>
    obtain ⟨first, second⟩ := e
    rw [loop_cons] at hc ⊢
    simp only [List.map_cons, List.nodup_cons] at hnodup
    rcases List.mem_append.mp hc with hhead | htail
    · rcases body_spec client color first second n with ⟨h1, _, _⟩ | ⟨d, h1, h2, _, h4⟩
      · simp [h1] at hhead
      · have hcd : c = d := by simpa [h1] using hhead
        subst hcd
        rw [h4, hfail, h2]
        simp [List.lookup]
    · have hkey : c.key ∈ rest.map Prod.fst := by
        have := List.mem_map_of_mem ToggleCall.key htail
        rw [loop_call_keys] at this
        have hsub : (rest.filter (mismatched color)).map Prod.fst ⊆ rest.map Prod.fst :=
          List.map_subset _ (List.filter_sublist rest).subset
        exact hsub this
      have hne : c.key ≠ first := fun h => hnodup.1 (h ▸ hkey)
      have hb : (c.key == first) = false := by simpa using hne
      simp [List.lookup, hb, ih _ hnodup.2 htail]

theorem target_lookup (color : String) (m : ColorEnable) (k : String)
    (hk : k ∈ m.map Prod.fst) :
    (m.map (fun e => (e.1, decide (e.1 = color)))).lookup k = some (decide (k = color)) := by
  induction m with
  | nil => simp at hk
  | cons e rest ih =>
    obtain ⟨first, second⟩ := e
    by_cases hkf : k = first
    · subst hkf
      simp [List.lookup]
    · have hb : (k == first) = false := by simpa using hkf
      have hk2 : k ∈ rest.map Prod.fst := by
        simp only [List.map_cons, List.mem_cons] at hk
        rcases hk with h | h
        · exact absurd h hkf
        · exact h
      simp only [List.map_cons, List.lookup, hb]
      exact ih hk2

theorem target_enabled (color : String) (m : ColorEnable)
    (hkey : color ∈ m.map Prod.fst) (hnodup : (m.map Prod.fst).Nodup) :
    (m.map (fun e => (e.1, decide (e.1 = color)))).filter (fun e => e.2) = [(color, true)] := by
  induction m with
  | nil => simp at hkey
  | cons e rest ih =>
    obtain ⟨first, second⟩ := e
    simp only [List.map_cons, List.nodup_cons] at hnodup
    by_cases hc : first = color
    · subst hc
      have hnone : ∀ e ∈ rest, ¬ e.1 = first := by
        intro e he h
        exact hnodup.1 (h ▸ List.mem_map_of_mem Prod.fst he)
      have hrest : (rest.map (fun e => (e.1, decide (e.1 = first)))).filter (fun e => e.2) = [] := by
        rw [List.filter_eq_nil_iff]
        intro e he
        simp only [List.mem_map] at he
        obtain ⟨a, ha, rfl⟩ := he
        simpa using hnone a ha
      simp [List.filter_cons, hrest]
    · have hk2 : color ∈ rest.map Prod.fst := by
        simp only [List.map_cons, List.mem_cons] at hkey
        rcases hkey with h | h
        · exact absurd h.symm hc
        · exact h
      simp [List.filter_cons, hc, ih hk2 hnodup.2]

/-- C4. When the winning color is a key of the robot's map and every toggle call of the
arbitration succeeds, afterwards the entry of the winning color is true, the entry of
every other color is false, and the winning entry is the only true one (so at most one
entry is true). -/
theorem arbitration_postcondition (client : ServiceClient) (m : ColorEnable) (color : String)
    (hkey : color ∈ m.map Prod.fst) (hnodup : (m.map Prod.fst).Nodup)
    (hok : ∀ c ∈ (call_color_enable_service client m color).2, c.ok = true) :
    (call_color_enable_service client m color).1.lookup color = some true ∧
    (∀ k ∈ m.map Prod.fst, k ≠ color →
      (call_color_enable_service client m color).1.lookup k = some false) ∧
    (call_color_enable_service client m color).1.filter (fun e => e.2) = [(color, true)] ∧
    ((call_color_enable_service client m color).1.filter (fun e => e.2)).length ≤ 1 := by
  have hmap := loop_all_ok client color m 0 hok
  unfold call_color_enable_service
  rw [hmap]
  refine ⟨?_, ?_, ?_, ?_⟩
  · simpa using target_lookup color m color hkey
  · intro k hk hne
    simpa [hne] using target_lookup color m k hk
  · exact target_enabled color m hkey hnodup
  · rw [target_enabled color m hkey hnodup]
    simp

theorem arbitration_postcondition_witness :
    (call_color_enable_service clientOk blueEnabled "green").1 =
      [("blue", false), ("green", true), ("red", false)] ∧
    (call_color_enable_service clientOk blueEnabled "green").1.lookup "green" = some true ∧
    ((call_color_enable_service clientOk blueEnabled "green").1.filter
      (fun e => e.2)).length ≤ 1 :=
  ⟨by decide,
   (arbitration_postcondition clientOk blueEnabled "green" (by decide) (by decide)
      (by decide)).1,
   (arbitration_postcondition clientOk blueEnabled "green" (by decide) (by decide)
      (by decide)).2.2.2⟩

/-- C5. For every map (keys distinct, as in a `std::map`), winning color and outcomes of
the toggle calls: the keys of the map are unchanged, a color whose toggle call fails
keeps the entry it had, a color with no toggle call keeps its entry, and a following
arbitration with the same winning color (whatever its outcomes) makes its calls for
exactly the colors whose call failed, in the same order. -/
theorem arbitration_failure_retry (client client2 : ServiceClient) (m : ColorEnable)
    (color : String) (hnodup : (m.map Prod.fst).Nodup) :
    (call_color_enable_service client m color).1.map Prod.fst = m.map Prod.fst ∧
    (∀ c ∈ (call_color_enable_service client m color).2, c.ok = false →
      (call_color_enable_service client m color).1.lookup c.key = m.lookup c.key) ∧
    (∀ k, k ∉ (call_color_enable_service client m color).2.map ToggleCall.key →
      (call_color_enable_service client m color).1.lookup k = m.lookup k) ∧
    (call_color_enable_service client2 (call_color_enable_service client m color).1 color).2.map
        ToggleCall.key =
      ((call_color_enable_service client m color).2.filter (fun c => !c.ok)).map
        ToggleCall.key := by
  unfold call_color_enable_service
  refine ⟨loop_keys client color m 0, ?_, ?_, ?_⟩
  · intro c hc hfail
    exact loop_failed_lookup client color m 0 hnodup c hc hfail
  · intro k hk
    exact loop_no_call_lookup client color m 0 k hk
  · rw [loop_call_keys, loop_failed_keys]

theorem arbitration_failure_retry_witness :
    (blueEnabled.map Prod.fst).Nodup ∧
    (call_color_enable_service clientFirstFails blueEnabled "green").1 =
      [("blue", true), ("green", true), ("red", false)] ∧
    (call_color_enable_service clientOk
      (call_color_enable_service clientFirstFails blueEnabled "green").1 "green").2.map
        ToggleCall.key = ["blue"] ∧
    ((call_color_enable_service clientFirstFails blueEnabled "green").2.filter
      (fun c => !c.ok)).map ToggleCall.key = ["blue"] :=
  ⟨by decide, by decide,
   (arbitration_failure_retry clientFirstFails clientOk blueEnabled "green"
      (by decide)).2.2.2.trans (by decide),
   by decide⟩

/-- C6. If every toggle call of a first arbitration succeeds, a second arbitration for
the same map and winning color (whatever its service would answer) makes no call and
leaves the map unchanged; and an arbitration on a map in which the winning color is
true and every other color false makes no call and leaves the map unchanged. -/
theorem arbitration_idempotent (client client2 : ServiceClient) (m : ColorEnable)
    (color : String) :
    ((∀ c ∈ (call_color_enable_service client m color).2, c.ok = true) →
      call_color_enable_service client2 (call_color_enable_service client m color).1 color =
        ((call_color_enable_service client m color).1, [])) ∧
    ((∀ e ∈ m, e.2 = decide (e.1 = color)) →
      call_color_enable_service client m color = (m, [])) := by
  unfold call_color_enable_service
  constructor
  · intro hok
    rw [loop_all_ok client color m 0 hok]
    apply loop_noop
    intro e he
    simp only [List.mem_map] at he
    obtain ⟨a, _, rfl⟩ := he
    rfl
  · intro h
    exact loop_noop client color m 0 h

theorem arbitration_idempotent_witness :
    (∀ c ∈ (call_color_enable_service clientOk blueEnabled "green").2, c.ok = true) ∧
    call_color_enable_service clientFail
        (call_color_enable_service clientOk blueEnabled "green").1 "green" =
      ([("blue", false), ("green", true), ("red", false)], []) ∧
    call_color_enable_service clientFail blueEnabled "blue" = (blueEnabled, []) :=
  ⟨by decide,
   ((arbitration_idempotent clientOk clientFail blueEnabled "green").1 (by decide)).trans
     (by decide),
   (arbitration_idempotent clientFail clientFail blueEnabled "blue").2 (by decide)⟩

/-- C3, at the map with blue enabled and winning color green, all calls succeeding: the
code makes one call for blue and one for green; the request for green carries the
one-character string of `true` as its color, not "green", and `enable = false`, not
true; the request for blue carries the one-character string of `false`, not "blue". -/
theorem toggle_requests_overwritten :
    (call_color_enable_service clientOk blueEnabled "green").2 =
      [{ key := "blue", request := { color := colorOfBool false, enable := false }, ok := true },
       { key := "green", request := { color := colorOfBool true, enable := false }, ok := true }] ∧
    colorOfBool true ≠ "green" ∧ colorOfBool false ≠ "blue" := by
  decide

/-! ## Comparisons of doubles -/

theorem Dbl.lt_self (a : Dbl) : Dbl.lt a a = false := by
  cases a <;> simp [Dbl.lt]

theorem Dbl.lt_chain {a b c : Dbl} (hab : Dbl.lt a b = true) (hbc : Dbl.lt b c = true) :
    Dbl.lt a c = true := by
  cases a <;> cases b <;> cases c <;> simp_all [Dbl.lt]
  linarith

theorem Dbl.lt_flip {a b : Dbl} (hab : Dbl.lt a b = true) : Dbl.lt b a = false := by
  cases a <;> cases b <;> simp_all [Dbl.lt]
  linarith

theorem Dbl.le_flip_of_lt {a b : Dbl} (hab : Dbl.lt a b = true) : Dbl.le b a = false := by
  cases a <;> cases b <;> simp_all [Dbl.lt, Dbl.le]

theorem Dbl.lt_of_le_lt {a b c : Dbl} (hab : Dbl.le a b = true) (hbc : Dbl.lt b c = true) :
    Dbl.lt a c = true := by
  cases a <;> cases b <;> cases c <;> simp_all [Dbl.lt, Dbl.le]
  linarith

theorem Dbl.le_of_not_lt {a b : Dbl} (ha : a ≠ Dbl.nan) (hb : b ≠ Dbl.nan)
    (h : Dbl.lt b a = false) : Dbl.le a b = true := by
  cases a <;> cases b <;> simp_all [Dbl.lt, Dbl.le]

theorem Dbl.eq_of_le_not_lt {a b : Dbl} (hle : Dbl.le a b = true) (h : Dbl.lt a b = false) :
    a = b := by
  cases a <;> cases b <;> simp_all [Dbl.lt, Dbl.le]
  linarith

theorem Dbl.eq_false_of_lt {a b : Dbl} (h : Dbl.lt a b = true) : Dbl.eq a b = false := by
  cases a <;> cases b <;> simp_all [Dbl.lt, Dbl.eq]
  intro h2
  rw [h2] at h
  exact absurd h (lt_irrefl _)

theorem Dbl.not_nan_of_lt {a b : Dbl} (h : Dbl.lt a b = true) : a ≠ Dbl.nan := by
  cases a <;> simp_all [Dbl.lt]

/-! ## Target selector -/

theorem scoresRead_survivor (env : Env) (clock : Clock) (self : CameraDirectionDeterminator)
    (cs : List TargetAngle) (i : Nat) (kfs : KalmanFilters) (j : Nat) (c : TargetAngle)
    (hc : cs[j]? = some c) :
    (self.MIN_CLUSTER ≤ c.cluster_num ↔
      ∃ s, (scoresRead env clock self cs i kfs)[j]? = some (some s)) := by
  induction cs generalizing i kfs j with
  | nil => simp at hc
  | cons agl rest ih =>
    simp only [scoresRead]
    cases j with
    | zero =>
      simp only [List.getElem?_cons_zero, Option.some.injEq] at hc
      subst hc
      split
      · rename_i h
        simp only [List.getElem?_cons_zero, Option.some.injEq]
        constructor
        · intro h2
          omega
        · rintro ⟨s, hs⟩
          cases hs
      · rename_i h
        simp only [List.getElem?_cons_zero, Option.some.injEq]
        constructor
        · intro _
          exact ⟨_, rfl⟩
        · intro _
          omega
    | succ j =>
      simp only [List.getElem?_cons_succ] at hc
      split
      · simpa using ih (i + 1) kfs j hc
      · simpa using ih (i + 1) _ j hc

theorem angle_loop_skip (env : Env) (clock : Clock) (self : CameraDirectionDeterminator)
    (cs : List TargetAngle) (i : Nat) (kfs : KalmanFilters) (angle : TargetAngle) (m : Dbl)
    (h : ∀ c ∈ cs, c.cluster_num < self.MIN_CLUSTER) :
    angle_callback_loop env clock self cs i kfs angle m = (kfs, angle, m) := by
  induction cs generalizing i with
  | nil => simp [angle_callback_loop]
  | cons agl rest ih =>
    have h0 : agl.cluster_num < self.MIN_CLUSTER := h agl (by simp)
    simp only [angle_callback_loop, h0, if_true]
    exact ih (i + 1) (fun c hc => h c (List.mem_cons_of_mem _ hc))

theorem angle_loop_select (env : Env) (clock : Clock) (self : CameraDirectionDeterminator)
    (cs : List TargetAngle) (i : Nat) (kfs : KalmanFilters) (angle : TargetAngle) (m : Dbl) :
    ((angle_callback_loop env clock self cs i kfs angle m).2.1 = angle ∧
      (angle_callback_loop env clock self cs i kfs angle m).2.2 = m ∧
      ∀ (j : Nat) (s : Dbl), (scoresRead env clock self cs i kfs)[j]? = some (some s) → Dbl.lt s m = false) ∨
    (∃ (w : Nat) (c : TargetAngle), cs[w]? = some c ∧
      (scoresRead env clock self cs i kfs)[w]? =
        some (some (angle_callback_loop env clock self cs i kfs angle m).2.2) ∧
      (angle_callback_loop env clock self cs i kfs angle m).2.1 = c ∧
      Dbl.lt (angle_callback_loop env clock self cs i kfs angle m).2.2 m = true ∧
      (∀ (j : Nat) (s : Dbl), (scoresRead env clock self cs i kfs)[j]? = some (some s) →
        Dbl.lt s (angle_callback_loop env clock self cs i kfs angle m).2.2 = false) ∧
      (∀ (j : Nat) (s : Dbl), j < w → (scoresRead env clock self cs i kfs)[j]? = some (some s) →
        Dbl.le s (angle_callback_loop env clock self cs i kfs angle m).2.2 = false)) := by
  induction cs generalizing i kfs angle m with
  | nil =>
    left
    simp [angle_callback_loop, scoresRead]
  | cons agl rest ih =>
    by_cases hskip : agl.cluster_num < self.MIN_CLUSTER
    · simp only [angle_callback_loop, scoresRead, hskip, if_true]
      rcases ih (i + 1) kfs angle m with ⟨h1, h2, h3⟩ | ⟨w, c, h1, h2, h3, h4, h5, h6⟩
      · left
        refine ⟨h1, h2, ?_⟩
        intro j s hj
        cases j with
        | zero => simp at hj
        | succ j => exact h3 j s (by simpa using hj)
      · right
        refine ⟨w + 1, c, by simpa using h1, by simpa using h2, h3, h4, ?_, ?_⟩
        · intro j s hj
          cases j with
          | zero => simp at hj
          | succ j => exact h5 j s (by simpa using hj)
        · intro j s hlt hj
          cases j with
          | zero => simp at hj
          | succ j => exact h6 j s (by omega) (by simpa using hj)
    · simp only [angle_callback_loop, scoresRead, hskip, if_false]
      generalize hk : KalmanFilters.call kfs agl.color
        (KFCall.estimate_update (elapsed env self (clock i))) = kfs1
      generalize hl : env.get_likelihood (KalmanFilters.at kfs1 agl.color) = l
      by_cases hlt : Dbl.lt l m = true
      · simp only [hlt, if_true]
        rcases ih (i + 1) kfs1 agl l with ⟨h1, h2, h3⟩ | ⟨w, c, h1, h2, h3, h4, h5, h6⟩
        · right
          refine ⟨0, agl, by simp, by simp [h2], h1, by rw [h2]; exact hlt, ?_, ?_⟩
          · intro j s hj
            rw [h2]
            cases j with
            | zero =>
              simp only [List.getElem?_cons_zero, Option.some.injEq] at hj
              subst hj
              exact Dbl.lt_self _
            | succ j => exact h3 j s (by simpa using hj)
          · intro j s hj0
            omega
        · right
          refine ⟨w + 1, c, by simpa using h1, by simpa using h2, h3,
            Dbl.lt_chain h4 hlt, ?_, ?_⟩
          · intro j s hj
            cases j with
            | zero =>
              simp only [List.getElem?_cons_zero, Option.some.injEq] at hj
              subst hj
              exact Dbl.lt_flip h4
            | succ j => exact h5 j s (by simpa using hj)
          · intro j s hjw hj
            cases j with
            | zero =>
              simp only [List.getElem?_cons_zero, Option.some.injEq] at hj
              subst hj
              exact Dbl.le_flip_of_lt h4
            | succ j => exact h6 j s (by omega) (by simpa using hj)
      · have hlt2 : Dbl.lt l m = false := by simpa using hlt
        simp only [hlt2, Bool.false_eq_true, if_false]
        rcases ih (i + 1) kfs1 angle m with ⟨h1, h2, h3⟩ | ⟨w, c, h1, h2, h3, h4, h5, h6⟩
        · left
          refine ⟨h1, h2, ?_⟩
          intro j s hj
          cases j with
          | zero =>
            simp only [List.getElem?_cons_zero, Option.some.injEq] at hj
            subst hj
            exact hlt2
          | succ j => exact h3 j s (by simpa using hj)
        · right
          refine ⟨w + 1, c, by simpa using h1, by simpa using h2, h3, h4, ?_, ?_⟩
          · intro j s hj
            cases j with
            | zero =>
              simp only [List.getElem?_cons_zero, Option.some.injEq] at hj
              subst hj
              cases hc : Dbl.lt l (angle_callback_loop env clock self rest (i + 1) kfs1
                angle m).2.2
              · rfl
              · rw [Dbl.lt_chain hc h4] at hlt2
                cases hlt2
            | succ j => exact h5 j s (by simpa using hj)
          · intro j s hjw hj
            cases j with
            | zero =>
              simp only [List.getElem?_cons_zero, Option.some.injEq] at hj
              subst hj
              cases hc : Dbl.le l (angle_callback_loop env clock self rest (i + 1) kfs1
                angle m).2.2
              · rfl
              · rw [Dbl.lt_of_le_lt hc h4] at hlt2
                cases hlt2
            | succ j => exact h6 j s (by omega) (by simpa using hj)

theorem min_likelihood_init_eq : Dbl.eq min_likelihood_init min_likelihood_init = true := by
  simp [min_likelihood_init, Dbl.eq]

/-- C7. When the candidate list is empty or every candidate has `cluster_num` below
`MIN_CLUSTER`, `angle_callback` publishes angle 0 for the reporting robot, makes no
service call and leaves the whole node, every robot's map included, unchanged. -/
theorem selector_default_when_none_survive (env : Env) (clock : Clock) (client : ServiceClient)
    (self : CameraDirectionDeterminator) (angles : TargetAngleList)
    (h : ∀ c ∈ angles.data, c.cluster_num < self.MIN_CLUSTER) :
    angle_callback env clock client self angles =
      { state := self
        published := { theta := Dbl.fin 0, roomba_number := angles.my_number }
        calls := [] } := by
  unfold angle_callback
  split
  · rfl
  · simp only [angle_loop_skip env clock self angles.data 0 self.kalman_filters_ _ _ h,
      min_likelihood_init_eq, if_true, publish_angle]

theorem selector_default_when_none_survive_witness :
    (∀ c ∈ smallAngles.data, c.cluster_num < exampleNode.MIN_CLUSTER) ∧
    angle_callback exampleEnv exampleClock clientOk exampleNode smallAngles =
      { state := exampleNode
        published := { theta := Dbl.fin 0, roomba_number := 2 }
        calls := [] } ∧
    angle_callback exampleEnv exampleClock clientOk exampleNode { my_number := 1, data := [] } =
      { state := exampleNode
        published := { theta := Dbl.fin 0, roomba_number := 1 }
        calls := [] } :=
  ⟨by decide,
   selector_default_when_none_survive exampleEnv exampleClock clientOk exampleNode smallAngles
     (by decide),
   selector_default_when_none_survive exampleEnv exampleClock clientOk exampleNode
     { my_number := 1, data := [] } (by decide)⟩

theorem data_ne_nil_of_score (env : Env) (clock : Clock) (self : CameraDirectionDeterminator)
    (cs : List TargetAngle) (i : Nat) (kfs : KalmanFilters) (j : Nat) (s : Option Dbl)
    (h : (scoresRead env clock self cs i kfs)[j]? = some s) : cs.isEmpty = false := by
  cases cs with
  | nil => simp [scoresRead] at h
  | cons a rest => rfl

/-- C1, amended. When every candidate's bearing angle is finite and some candidate that
passes the `MIN_CLUSTER` filter has a score below the initial `min_likelihood` (1e5),
`angle_callback` publishes, for the reporting robot, the bearing angle of a candidate w
that passes the filter, such that no surviving candidate's score is less than the score
of w and no surviving candidate earlier in the list has a score less than or equal to
it; hence, when no surviving score is NaN, the score of w is at most every surviving
score and w is the earliest candidate with that score. Scores are the values read right
after advancing the candidate's track (`scoresRead`). -/
theorem selector_picks_first_minimum (env : Env) (clock : Clock) (client : ServiceClient)
    (self : CameraDirectionDeterminator) (angles : TargetAngleList)
    (hfin : ∀ c ∈ angles.data, Dbl.isfinite c.radian = true)
    (hsome : ∃ (j : Nat) (s : Dbl),
      (scoresRead env clock self angles.data 0 self.kalman_filters_)[j]? = some (some s) ∧
      Dbl.lt s min_likelihood_init = true) :
    ∃ (w : Nat) (c : TargetAngle) (s : Dbl),
      angles.data[w]? = some c ∧
      (scoresRead env clock self angles.data 0 self.kalman_filters_)[w]? = some (some s) ∧
      self.MIN_CLUSTER ≤ c.cluster_num ∧
      (angle_callback env clock client self angles).published =
        { theta := c.radian, roomba_number := angles.my_number } ∧
      (∀ (j : Nat) (t : Dbl),
        (scoresRead env clock self angles.data 0 self.kalman_filters_)[j]? = some (some t) →
        Dbl.lt t s = false) ∧
      (∀ (j : Nat) (t : Dbl), j < w →
        (scoresRead env clock self angles.data 0 self.kalman_filters_)[j]? = some (some t) →
        Dbl.le t s = false) ∧
      ((∀ (j : Nat) (t : Dbl),
          (scoresRead env clock self angles.data 0 self.kalman_filters_)[j]? = some (some t) →
          t ≠ Dbl.nan) →
        (∀ (j : Nat) (t : Dbl),
          (scoresRead env clock self angles.data 0 self.kalman_filters_)[j]? = some (some t) →
          Dbl.le s t = true) ∧
        (∀ (j : Nat) (t : Dbl), j < w →
          (scoresRead env clock self angles.data 0 self.kalman_filters_)[j]? = some (some t) →
          Dbl.lt s t = true)) := by
  obtain ⟨j0, s0, hj0, hs0⟩ := hsome
  have hne := data_ne_nil_of_score env clock self angles.data 0 self.kalman_filters_ j0 _ hj0
  rcases angle_loop_select env clock self angles.data 0 self.kalman_filters_
      { color := "", cluster_num := 0, radian := Dbl.fin 0 } min_likelihood_init with
    ⟨_, _, h3⟩ | ⟨w, c, h1, h2, h3, h4, h5, h6⟩
  · rw [h3 j0 s0 hj0] at hs0
    cases hs0
  · refine ⟨w, c, _, h1, h2, ?_, ?_, h5, h6, ?_⟩
    · exact (scoresRead_survivor env clock self angles.data 0 self.kalman_filters_ w c h1).mpr
        ⟨_, h2⟩
    · have hc : Dbl.isfinite c.radian = true := hfin c (List.getElem?_mem h1)
      unfold angle_callback
      simp only [hne, Bool.false_eq_true, if_false, Dbl.eq_false_of_lt h4, h3, hc,
        Bool.not_true]
      split <;> rfl
    · intro hnan
      have hsn : (angle_callback_loop env clock self angles.data 0 self.kalman_filters_
          { color := "", cluster_num := 0, radian := Dbl.fin 0 } min_likelihood_init).2.2 ≠
          Dbl.nan := Dbl.not_nan_of_lt h4
      constructor
      · intro j t hj
        exact Dbl.le_of_not_lt hsn (hnan j t hj) (h5 j t hj)
      · intro j t hjw hj
        have hle := Dbl.le_of_not_lt hsn (hnan j t hj) (h5 j t hj)
        cases hlt : Dbl.lt _ t
        · have := Dbl.eq_of_le_not_lt hle hlt
          have h6j := h6 j t hjw hj
          rw [← this] at h6j
          have hself := Dbl.le_of_not_lt hsn hsn (Dbl.lt_self _)
          rw [hself] at h6j
          cases h6j
        · rfl

theorem selector_picks_first_minimum_witness :
    (∀ c ∈ exampleAngles.data, Dbl.isfinite c.radian = true) ∧
    scoresRead exampleEnv exampleClock exampleNode exampleAngles.data 0
      exampleNode.kalman_filters_ = [some (Dbl.fin (1 / 5)), some (Dbl.fin (1 / 2))] ∧
    (angle_callback exampleEnv exampleClock clientOk exampleNode exampleAngles).published =
      { theta := Dbl.fin (3 / 10), roomba_number := 1 } ∧
    ∃ (w : Nat) (c : TargetAngle), exampleAngles.data[w]? = some c ∧
      (angle_callback exampleEnv exampleClock clientOk exampleNode exampleAngles).published =
        { theta := c.radian, roomba_number := 1 } := by
  refine ⟨by decide, by decide!, by decide!, ?_⟩
  obtain ⟨w, c, _, hw, _, _, hp, _⟩ :=
    selector_picks_first_minimum exampleEnv exampleClock clientOk exampleNode exampleAngles
      (by decide) ⟨0, Dbl.fin (1 / 5), by decide!, by decide!⟩
  exact ⟨w, c, hw, hp⟩

/-- C1 as stated fails: with MIN_CLUSTER = 300 and the candidates green (400, 0.3) and blue
(500, -0.1), both passing the filter and both with a finite bearing angle, when the
scores read are 200000 the angle published is 0, which is the bearing angle of no
candidate. -/
theorem selector_ignores_scores_above_bound :
    (∀ c ∈ exampleAngles.data,
      exampleNode.MIN_CLUSTER ≤ c.cluster_num ∧ Dbl.isfinite c.radian = true) ∧
    scoresRead staleEnv exampleClock exampleNode exampleAngles.data 0
      exampleNode.kalman_filters_ = [some (Dbl.fin 200000), some (Dbl.fin 200000)] ∧
    (angle_callback staleEnv exampleClock clientOk exampleNode exampleAngles).published =
      { theta := Dbl.fin 0, roomba_number := 1 } ∧
    (∀ c ∈ exampleAngles.data,
      c.radian ≠
        (angle_callback staleEnv exampleClock clientOk exampleNode exampleAngles).published.theta)
    := by
  decide!

/-- C8. When the winning candidate, the one that passes the `MIN_CLUSTER` filter with a
score at most every surviving score and strictly below the score of every earlier
surviving candidate, has a bearing angle that is not finite, `angle_callback` publishes
angle 0 for the reporting robot, makes no service call and leaves every robot's map
unchanged. -/
theorem selector_default_when_winner_not_finite (env : Env) (clock : Clock)
    (client : ServiceClient) (self : CameraDirectionDeterminator) (angles : TargetAngleList)
    (w : Nat) (c : TargetAngle) (s : Dbl)
    (hw : angles.data[w]? = some c)
    (hs : (scoresRead env clock self angles.data 0 self.kalman_filters_)[w]? = some (some s))
    (hmin : ∀ (j : Nat) (t : Dbl),
      (scoresRead env clock self angles.data 0 self.kalman_filters_)[j]? = some (some t) →
      Dbl.le s t = true)
    (hfirst : ∀ (j : Nat) (t : Dbl), j < w →
      (scoresRead env clock self angles.data 0 self.kalman_filters_)[j]? = some (some t) →
      Dbl.lt s t = true)
    (hnf : Dbl.isfinite c.radian = false) :
    (angle_callback env clock client self angles).published =
      { theta := Dbl.fin 0, roomba_number := angles.my_number } ∧
    (angle_callback env clock client self angles).calls = [] ∧
    (angle_callback env clock client self angles).state.color_enables_ = self.color_enables_ := by
  have hne := data_ne_nil_of_score env clock self angles.data 0 self.kalman_filters_ w _ hs
  unfold angle_callback
  simp only [hne, Bool.false_eq_true, if_false]
  rcases angle_loop_select env clock self angles.data 0 self.kalman_filters_
      { color := "", cluster_num := 0, radian := Dbl.fin 0 } min_likelihood_init with
    ⟨_, h2, _⟩ | ⟨v, d, h1, h2, h3, _, h5, h6⟩
  · simp only [h2, min_likelihood_init_eq, if_true, publish_angle, and_self]
  · have hvw : v = w := by
      rcases Nat.lt_trichotomy v w with hlt | heq | hgt
      · have ha := hfirst v _ hlt h2
        rw [h5 w s hs] at ha
        cases ha
      · exact heq
      · have ha := hmin v _ h2
        rw [h6 w s hgt hs] at ha
        cases ha
    subst hvw
    have hcd : d = c := by
      rw [h1] at hw
      exact Option.some.inj hw
    subst hcd
    split
    · simp only [publish_angle, and_self]
    · simp only [h3, hnf, Bool.not_false, if_true, publish_angle, and_self]

theorem selector_default_when_winner_not_finite_witness :
    nanAngles.data[0]? = some { color := "green", cluster_num := 400, radian := Dbl.nan } ∧
    scoresRead exampleEnv exampleClock exampleNode nanAngles.data 0
      exampleNode.kalman_filters_ = [some (Dbl.fin (1 / 5)), some (Dbl.fin (1 / 2))] ∧
    (angle_callback exampleEnv exampleClock clientOk exampleNode nanAngles).published =
      { theta := Dbl.fin 0, roomba_number := 1 } ∧
    (angle_callback exampleEnv exampleClock clientOk exampleNode nanAngles).calls = [] ∧
    (angle_callback exampleEnv exampleClock clientOk exampleNode nanAngles).state.color_enables_ =
      exampleNode.color_enables_ :=
  ⟨by decide, by decide!,
   selector_default_when_winner_not_finite exampleEnv exampleClock clientOk exampleNode
     nanAngles 0 { color := "green", cluster_num := 400, radian := Dbl.nan } (Dbl.fin (1 / 5))
     (by decide) (by decide!)
     (by
       intro j t hj
       have hS : scoresRead exampleEnv exampleClock exampleNode nanAngles.data 0
           exampleNode.kalman_filters_ = [some (Dbl.fin (1 / 5)), some (Dbl.fin (1 / 2))] := by
         decide!
       rw [hS] at hj
       match j, hj with
       | 0, hj =>
         simp only [List.getElem?_cons_zero, Option.some.injEq] at hj
         subst hj
         decide!
       | 1, hj =>
         simp only [List.getElem?_cons_succ, List.getElem?_cons_zero, Option.some.injEq] at hj
         subst hj
         decide!
       | j + 2, hj => simp at hj)
     (by
       intro j t hj
       omega)
     (by decide)⟩

/-! ## Visualizer -/

theorem timer_loop_actions (env : Env) (clock : Clock) (self : CameraDirectionDeterminator)
    (cs : List String) (i : Nat) (kfs : KalmanFilters) :
    (timer_callback_loop env clock self cs i kfs).2.map Marker.action =
      (timerScores env clock self cs i kfs).map
        (fun s => if Dbl.lt s self.LIFETIME_THRESHOLD then MarkerAction.DELETE
          else MarkerAction.ADD) := by
  induction cs generalizing i kfs with
  | nil => simp [timer_callback_loop, timerScores]
  | cons color rest ih =>
    simp only [timer_callback_loop, timerScores, List.map_cons, ih, List.cons.injEq, and_true]
    unfold timer_marker
    split <;> rfl

theorem timer_loop_ids (env : Env) (clock : Clock) (self : CameraDirectionDeterminator)
    (cs : List String) (i : Nat) (kfs : KalmanFilters) :
    (timer_callback_loop env clock self cs i kfs).2.map Marker.id =
      List.range' i cs.length := by
  induction cs generalizing i kfs with
  | nil => simp [timer_callback_loop]
  | cons color rest ih =>
    simp only [timer_callback_loop, List.map_cons, ih, List.length_cons, List.range'_succ,
      List.cons.injEq, and_true]
    unfold timer_marker
    split <;> rfl

/-- C2, amended. On every tick `timer_callback` emits one marker per color of `colors_`,
in order, with the index of the color as id; the marker of a color is a removal (DELETE)
when the score read after advancing the color's track is less than `LIFETIME_THRESHOLD`,
and a shape (ADD) otherwise. -/
theorem visualizer_deletes_below_threshold (env : Env) (clock : Clock)
    (self : CameraDirectionDeterminator) :
    (timer_callback env clock self).2.map Marker.id = List.range self.colors_.length ∧
    (timer_callback env clock self).2.map Marker.action =
      (timerScores env clock self self.colors_ 0 self.kalman_filters_).map
        (fun s => if Dbl.lt s self.LIFETIME_THRESHOLD then MarkerAction.DELETE
          else MarkerAction.ADD) := by
  unfold timer_callback
  exact ⟨by simp [timer_loop_ids, List.range_eq_range'], timer_loop_actions _ _ _ _ _ _⟩

/-- C2 as stated fails in both directions. With LIFETIME_THRESHOLD = 0.1: when the scores
read for green and blue are 0.2 and 0.5, both at least the threshold, both markers are
shapes (ADD), not removals; when the scores read are 0, below the threshold, both markers
are removals (DELETE), not shapes. -/
theorem visualizer_keeps_scores_above_threshold :
    timerScores exampleEnv exampleClock exampleNode exampleNode.colors_ 0
      exampleNode.kalman_filters_ = [Dbl.fin (1 / 5), Dbl.fin (1 / 2)] ∧
    Dbl.le exampleNode.LIFETIME_THRESHOLD (Dbl.fin (1 / 5)) = true ∧
    Dbl.le exampleNode.LIFETIME_THRESHOLD (Dbl.fin (1 / 2)) = true ∧
    (timer_callback exampleEnv exampleClock exampleNode).2.map Marker.action =
      [MarkerAction.ADD, MarkerAction.ADD] ∧
    timerScores freshEnv exampleClock exampleNode exampleNode.colors_ 0
      exampleNode.kalman_filters_ = [Dbl.fin 0, Dbl.fin 0] ∧
    Dbl.lt (Dbl.fin 0) exampleNode.LIFETIME_THRESHOLD = true ∧
    (timer_callback freshEnv exampleClock exampleNode).2.map Marker.action =
      [MarkerAction.DELETE, MarkerAction.DELETE] := by
  decide!

/-! ## Track store -/

/-- C9, at a node with an empty track store. A timer tick creates the tracks of green and
blue by `estimate_update` alone, and the observation of green that follows finds the
track present and only fuses the measurement: the track of green never receives the
configured noise parameters. When the observation comes first, the track is created with
them. -/
theorem track_created_by_timer_lacks_noise :
    (timer_callback exampleEnv exampleClock { exampleNode with kalman_filters_ := [] }).1.kalman_filters_ =
      [("green", [KFCall.estimate_update (Dbl.fin 0)]),
       ("blue", [KFCall.estimate_update (Dbl.fin 1)])] ∧
    (position_callback exampleEnv identityBuffer exampleClock
      (timer_callback exampleEnv exampleClock { exampleNode with kalman_filters_ := [] }).1
      greenPosition).kalman_filters_ =
      [("green", [KFCall.estimate_update (Dbl.fin 0),
          KFCall.update (Dbl.fin 2) (Dbl.fin (-1)) (Dbl.fin 0)]),
       ("blue", [KFCall.estimate_update (Dbl.fin 1)])] ∧
    carriesConfiguredNoise exampleNode
      [KFCall.estimate_update (Dbl.fin 0),
        KFCall.update (Dbl.fin 2) (Dbl.fin (-1)) (Dbl.fin 0)] = false ∧
    (position_callback exampleEnv identityBuffer exampleClock
      { exampleNode with kalman_filters_ := [] } greenPosition).kalman_filters_ =
      [("green", [KFCall.set_motion_noise (Dbl.fin (3 / 100)),
          KFCall.set_measurement_noise (Dbl.fin (1 / 10)),
          KFCall.update (Dbl.fin 2) (Dbl.fin (-1)) (Dbl.fin 0)])] ∧
    carriesConfiguredNoise exampleNode
      [KFCall.set_motion_noise (Dbl.fin (3 / 100)),
        KFCall.set_measurement_noise (Dbl.fin (1 / 10)),
        KFCall.update (Dbl.fin 2) (Dbl.fin (-1)) (Dbl.fin 0)] = true := by
  decide!

/-! ## Transform pipeline -/

/-- C10. The pose that `calc_target_pose_on_world` hands to `tf2::doTransform` has
position (z, -x, y) of the camera-relative triple and orientation w = 1, x = y = z = 0,
and the output is the transform of that pose; under a transform that keeps every pose,
the output position is (z, -x, y). -/
theorem camera_axes_remapped (env : Env) (roomba : String) (target : TargetPosition)
    (transform : TransformStamped)
    (hid : ∀ p : PoseStamped, (env.doTransform p transform).pose = p.pose) :
    (target_pose roomba target).pose.position =
      { x := target.z, y := Dbl.neg target.x, z := target.y } ∧
    (target_pose roomba target).pose.orientation =
      { w := Dbl.fin 1, x := Dbl.fin 0, y := Dbl.fin 0, z := Dbl.fin 0 } ∧
    calc_target_pose_on_world env roomba target transform =
      env.doTransform (target_pose roomba target) transform ∧
    (calc_target_pose_on_world env roomba target transform).pose.position =
      { x := target.z, y := Dbl.neg target.x, z := target.y } := by
  refine ⟨rfl, rfl, rfl, ?_⟩
  unfold calc_target_pose_on_world
  rw [hid]
  rfl

theorem camera_axes_remapped_witness :
    (∀ p : PoseStamped, (exampleEnv.doTransform p identityTransform).pose = p.pose) ∧
    (calc_target_pose_on_world exampleEnv "roomba1" greenPosition
      identityTransform).pose.position =
      { x := Dbl.fin 2, y := Dbl.fin (-1), z := Dbl.fin (1 / 2) } :=
  ⟨by intro p; simp [exampleEnv, identityTransform],
   (camera_axes_remapped exampleEnv "roomba1" greenPosition identityTransform
      (by intro p; simp [exampleEnv, identityTransform])).2.2.2.trans (by decide!)⟩

end CameraDirection
